import Mathlib

/-!
Verification development for the funance repository.

Shallow embedding of the repository's Python sources:
  - `funance/common/redis.py`        (RedisStore.save / RedisStore.load)
  - `funance/scrape/export/brokerage_formatter.py`
      (CsvFormatter.format, BrokerageFormatterFactory.get_formatter)
  - `funance/cli/dashboard/commands.py` (get_yaml)
  - `funance/forecast/dashboard.py`  (get_charts)
plus a model of the forecast projection engine (Projector / DateSpec /
Account / ledger accumulation), whose Python source is not part of the
six files here; that part is modelled from the design document.

Library calls (pandas parquet, plotly JSON encoding, SHA-512, redis) are
modelled as abstract parameters of the functions that use them; all
repository-level logic is embedded concretely and executably.
-/

/-- Python-level errors that the embedded code can raise. -/
inductive PyErr where
  | keyError (k : String)
  | typeError
  | attributeError
  | unboundLocalError
  | parquetError
  | jsonError
  deriving DecidableEq, Repr

/-- JSON-like values: the common data shape for exported brokerage files,
YAML documents and Plotly-serializable Python values. -/
inductive Json where
  | str (s : String)
  | num (n : Int)
  | arr (xs : List Json)
  | obj (fields : List (String × Json))

/-- Byte strings, as lists of byte values. -/
def Bytes : Type := List Nat

instance : DecidableEq Bytes := by
  unfold Bytes
  infer_instance

/-- A value stored in redis: either raw bytes or a string. -/
inductive RVal where
  | bytes (b : Bytes)
  | str (s : String)
  deriving DecidableEq

/-- The redis key/value store, as an association list; `rset` prepends, so
the most recent write of a key shadows older ones. -/
def RedisState : Type := List (String × RVal)

/-- Model of `redis.set`: write a value under a key. -/
def rset (st : RedisState) (k : String) (v : RVal) : RedisState :=
  (k, v) :: st

/-- Model of `redis.get`: read the most recent value written under a key. -/
def rget (st : RedisState) (k : String) : Option RVal :=
  (List.find? (fun p => p.1 == k) st).map Prod.snd

/-- A pandas DataFrame, abstracted to its cell contents; the claims about
`RedisStore` only need it to be a serializable value with equality. -/
structure DataFrame where
  cells : List Int
  deriving DecidableEq, Repr

/-- The external serialization libraries used by `redis.py` (pandas
parquet, plotly JSON encoding, hashlib sha512), as abstract functions. -/
structure Backend where
  toParquet : DataFrame → Bytes
  fromParquet : Bytes → Option DataFrame
  plotlyEncode : Json → Bytes
  jsonLoads : Bytes → Option Json
  sha512hex : Bytes → String

/-- A Python value passed to `RedisStore.save`: a DataFrame or any other
(JSON-serializable) value. -/
inductive PyValue where
  | df (d : DataFrame)
  | py (j : Json)

/-- What `RedisStore.load` returns: a parsed DataFrame or a JSON value. -/
inductive Loaded where
  | df (d : DataFrame)
  | json (j : Json)

/-- Embedding of `RedisStore.save` (redis.py lines 35-58): serialize the
value (DataFrame as parquet bytes, anything else as Plotly-encoded JSON
bytes), hash the serialized bytes with SHA-512, store the bytes under
`_dash_aio_components_value_<hash>` and a type tag under
`_dash_aio_components_type_<hash>`, and return the hash key. -/
def RedisStore.save (B : Backend) (value : PyValue) (st : RedisState) :
    String × RedisState :=
  match value with
  | .df d =>
    let dfAsBytes := B.toParquet d
    let hashKey := B.sha512hex dfAsBytes
    let st1 := rset st ("_dash_aio_components_value_" ++ hashKey) (.bytes dfAsBytes)
    let st2 := rset st1 ("_dash_aio_components_type_" ++ hashKey) (.str "pd.DataFrame")
    (hashKey, st2)
  | .py j =>
    let serializedValue := B.plotlyEncode j
    let hashKey := B.sha512hex serializedValue
    let st1 := rset st ("_dash_aio_components_value_" ++ hashKey) (.bytes serializedValue)
    let st2 := rset st1 ("_dash_aio_components_type_" ++ hashKey) (.str "json-serialized")
    (hashKey, st2)

/-- Embedding of `RedisStore.load` (redis.py lines 60-73): read the type
tag and the serialized bytes for a hash key; parse parquet when the tag
is `pd.DataFrame`, otherwise `json.loads`. -/
def RedisStore.load (B : Backend) (st : RedisState) (hashKey : String) :
    Except PyErr Loaded :=
  let dataType := rget st ("_dash_aio_components_type_" ++ hashKey)
  let serializedValue := rget st ("_dash_aio_components_value_" ++ hashKey)
  if dataType = some (.str "pd.DataFrame") then
    match serializedValue with
    | some (.bytes b) =>
      match B.fromParquet b with
      | some d => .ok (.df d)
      | none => .error .parquetError
    | _ => .error .typeError
  else
    match serializedValue with
    | some (.bytes b) =>
      match B.jsonLoads b with
      | some j => .ok (.json j)
      | none => .error .jsonError
    | _ => .error .typeError

/-- The serialized form `RedisStore.save` computes for a value. -/
def serializedBytes (B : Backend) (value : PyValue) : Bytes :=
  match value with
  | .df d => B.toParquet d
  | .py j => B.plotlyEncode j

/-- The type tag `RedisStore.save` stores for a value. -/
def typeTag (value : PyValue) : String :=
  match value with
  | .df _ => "pd.DataFrame"
  | .py _ => "json-serialized"

theorem value_key_ne_type_key (h : String) :
    ("_dash_aio_components_value_" ++ h) ≠ ("_dash_aio_components_type_" ++ h) := by
  intro he
  have hl : ("_dash_aio_components_value_" ++ h).length
      = ("_dash_aio_components_type_" ++ h).length := by rw [he]
  rw [String.length_append, String.length_append] at hl
  have h1 : ("_dash_aio_components_value_" : String).length = 27 := rfl
  have h2 : ("_dash_aio_components_type_" : String).length = 26 := rfl
  rw [h1, h2] at hl
  omega

/-! ## CSV export of brokerage lots (brokerage_formatter.py) -/

/-- Python dict subscription `j[k]`: field lookup on an object, `KeyError`
when the key is missing, `TypeError` on a non-dict. -/
def jsonGet (j : Json) (k : String) : Except PyErr Json :=
  match j with
  | .obj fields =>
    match List.find? (fun p => p.1 == k) fields with
    | some p => .ok p.2
    | none => .error (.keyError k)
  | _ => .error .typeError

/-- Python `j.values()`: the values of a dict in insertion order;
`AttributeError` on anything that is not a dict (in particular a list). -/
def jsonValues (j : Json) : Except PyErr (List Json) :=
  match j with
  | .obj fields => .ok (fields.map Prod.snd)
  | _ => .error .attributeError

/-- Python iteration `for x in j`: the elements of a list, `TypeError`
otherwise. -/
def jsonElems (j : Json) : Except PyErr (List Json) :=
  match j with
  | .arr xs => .ok xs
  | _ => .error .typeError

/-- One CSV row written by `CsvFormatter.format`. -/
structure CsvRow where
  account_name : Json
  ticker : Json
  date_acquired : Json
  num_shares : Json
  cost_per_share : Json
  total_cost : Json
  term : Json

/-- The CSV header (brokerage_formatter.py line 14). -/
def CsvFormatter.HEADERS : List String :=
  ["account_name", "ticker", "date_acquired", "num_shares", "cost_per_share",
   "total_cost", "term"]

/-- The row written for one lot (brokerage_formatter.py lines 36-44),
reading the lot's fields together with the enclosing cost-basis entry's
ticker and the enclosing account's account_name, in source order. -/
def rowForLot (a cb lot : Json) : Except PyErr CsvRow := do
  let tickerV ← jsonGet cb "ticker"
  let dateAcquiredV ← jsonGet lot "date_acquired"
  let numSharesV ← jsonGet lot "num_shares"
  let costPerShareV ← jsonGet lot "cost_per_share"
  let totalCostV ← jsonGet lot "total_cost"
  let accountNameV ← jsonGet a "account_name"
  let termV ← jsonGet lot "term"
  pure { account_name := accountNameV, ticker := tickerV,
         date_acquired := dateAcquiredV, num_shares := numSharesV,
         cost_per_share := costPerShareV, total_cost := totalCostV,
         term := termV }

/-- Rows for one cost-basis entry: `for lot in cb['lots']`. -/
def rowsForCostBasis (a cb : Json) : Except PyErr (List CsvRow) := do
  let lotsV ← jsonGet cb "lots"
  let lots ← jsonElems lotsV
  lots.mapM (rowForLot a cb)

/-- Rows for one account: `for cb in a['cost_basis'].values()`. -/
def rowsForAccount (a : Json) : Except PyErr (List CsvRow) := do
  let cbV ← jsonGet a "cost_basis"
  let cbs ← jsonValues cbV
  let xss ← cbs.mapM (rowsForCostBasis a)
  pure xss.flatten

/-- Rows for one exported JSON document:
`for a in data['accounts'].values()`. -/
def rowsForData (data : Json) : Except PyErr (List CsvRow) := do
  let accountsV ← jsonGet data "accounts"
  let accounts ← jsonValues accountsV
  let xss ← accounts.mapM rowsForAccount
  pure xss.flatten

/-- Filename filter of `CsvFormatter.format` (line 21): names starting
with `brokerage` and ending with `.json`. -/
def brokerageNameMatch (s : String) : Bool :=
  List.isPrefixOf (String.toList "brokerage") (String.toList s)
    && List.isSuffixOf (String.toList ".json") (String.toList s)

/-- Embedding of `CsvFormatter.format` (brokerage_formatter.py lines
19-45). The export directory is a list of (filename, parsed JSON)
pairs; the result is the written CSV: the header row followed by the
lot rows, or the Python error the method raises. -/
def CsvFormatter.format (dir : List (String × Json)) :
    Except PyErr (List String × List CsvRow) := do
  let filenames := dir.filter (fun p => brokerageNameMatch p.1)
  let xss ← filenames.mapM (fun p => rowsForData p.2)
  pure (CsvFormatter.HEADERS, xss.flatten)

/-- The exact document `BrokerageWriter.dump_schema` produces, as pinned
by `test_brokerage_writer.py` (lines 32-49): note that `accounts` and
`cost_basis` are JSON arrays. -/
def brokerageWriterDoc : Json :=
  .obj [
    ("_meta", .obj [("brokerage", .str "vanguard"), ("version", .str "0.0.1")]),
    ("accounts", .arr [
      .obj [
        ("account_name", .str "Freedom"),
        ("cash", .str ""),
        ("cost_basis", .arr [
          .obj [
            ("ticker", .str "CRLBF"),
            ("company_name", .str "Cresco Labs"),
            ("total_shares", .str "73"),
            ("lots", .arr [
              .obj [
                ("date_acquired", .str "12/27/2018"),
                ("num_shares", .str "16.0000"),
                ("cost_per_share", .str "39.21"),
                ("total_cost", .str "627.32")]])]])]])]

/-! ## Formatter factory (brokerage_formatter.py lines 52-65) -/

/-- The formatter classes the factory can instantiate. -/
inductive FormatterInstance where
  | csvFormatter
  deriving DecidableEq, Repr

/-- The factory's `formatters` mapping (line 53). -/
def BrokerageFormatterFactory.formatters : List (String × FormatterInstance) :=
  [("csv", .csvFormatter)]

/-- Embedding of `get_supported_formatters` (line 57): the keys of the
`formatters` mapping. -/
def BrokerageFormatterFactory.get_supported_formatters : List String :=
  BrokerageFormatterFactory.formatters.map Prod.fst

/-- Embedding of `get_formatter` (lines 60-65): look the name up in the
`formatters` mapping; instantiate the class on a hit, otherwise raise
`UnsupportedFormatterException` with a message joining the supported
names with `, `. -/
def BrokerageFormatterFactory.get_formatter (formatterName : String) :
    Except String FormatterInstance :=
  match (List.find? (fun p => p.1 == formatterName)
      BrokerageFormatterFactory.formatters).map Prod.snd with
  | some c => .ok c
  | none => .error ("Formatter must be one of "
      ++ String.intercalate ", " BrokerageFormatterFactory.get_supported_formatters)

/-! ## YAML spec selection (cli/dashboard/commands.py lines 19-25) -/

/-- The four spec files named in `funance.common.paths`. -/
inductive SpecFile where
  | forecastFile
  | forecastDistFile
  | investFile
  | investDistFile
  deriving DecidableEq, Repr

/-- The file system as `get_yaml` observes it: which user files exist,
and the parsed YAML content behind each path. -/
structure Fs where
  forecastUserExists : Bool
  investUserExists : Bool
  read : SpecFile → Json

/-- Embedding of `get_yaml` (commands.py lines 19-25). `spec_file` starts
unassigned; each of the two `if` statements may assign it; reading it
while still unassigned raises `UnboundLocalError` before any file is
opened. The result pairs the outcome with the list of files opened. -/
def get_yaml (fs : Fs) (type_ : String) : Except PyErr Json × List SpecFile :=
  let specFile : Option SpecFile := none
  let specFile := if type_ = "forecast"
    then some (if fs.forecastUserExists then .forecastFile else .forecastDistFile)
    else specFile
  let specFile := if type_ = "invest"
    then some (if fs.investUserExists then .investFile else .investDistFile)
    else specFile
  match specFile with
  | none => (.error .unboundLocalError, [])
  | some f => (.ok (fs.read f), [f])

/-! ## Calendar dates

Proleptic Gregorian dates with the arithmetic `dateutil.relativedelta`
performs: adding days rolls over month/year boundaries; adding months or
years keeps the day-of-month, clamped to the length of the target month.
-/

/-- A calendar date (year, month 1-12, day 1-31). -/
structure Date where
  year : Nat
  month : Nat
  day : Nat
  deriving DecidableEq, Repr

/-- Gregorian leap-year rule. -/
def isLeap (y : Nat) : Bool :=
  (y % 4 == 0 && y % 100 != 0) || y % 400 == 0

/-- Number of days in a month. -/
def daysInMonth (y m : Nat) : Nat :=
  if m = 2 then (if isLeap y then 29 else 28)
  else if m = 4 ∨ m = 6 ∨ m = 9 ∨ m = 11 then 30
  else 31

/-- The day after a date (`relativedelta(days=1)`). -/
def nextDay (d : Date) : Date :=
  if d.day < daysInMonth d.year d.month then ⟨d.year, d.month, d.day + 1⟩
  else if d.month < 12 then ⟨d.year, d.month + 1, 1⟩
  else ⟨d.year + 1, 1, 1⟩

/-- Adding n days, one at a time. -/
def addDaysN : Nat → Date → Date
  | 0, d => d
  | n + 1, d => addDaysN n (nextDay d)

/-- Adding months with day-of-month clamping (`relativedelta(months=n)`). -/
def addMonths (n : Nat) (d : Date) : Date :=
  let t := d.month - 1 + n
  let y := d.year + t / 12
  let m := t % 12 + 1
  ⟨y, m, min d.day (daysInMonth y m)⟩

/-- Adding years with day-of-month clamping (`relativedelta(years=n)`):
February 29 becomes February 28 in a non-leap target year. -/
def addYears (d : Date) (n : Nat) : Date :=
  ⟨d.year + n, d.month, min d.day (daysInMonth (d.year + n) d.month)⟩

/-- Days in the months of year y strictly before month m. -/
def daysBeforeMonth (y m : Nat) : Nat :=
  (List.range (m - 1)).foldl (fun acc k => acc + daysInMonth y (k + 1)) 0

/-- Serial day number of a date; strictly monotone in calendar order. -/
def toSerial (d : Date) : Nat :=
  365 * d.year + (d.year / 4 + d.year / 400 - d.year / 100)
    + daysBeforeMonth d.year d.month + (d.day - 1)

/-- Calendar order on dates, via serial day numbers. -/
def dateLe (a b : Date) : Bool :=
  toSerial a ≤ toSerial b

/-- The later of two dates. -/
def maxDate (a b : Date) : Date :=
  if dateLe a b then b else a

/-- The earlier of two dates. -/
def minDate (a b : Date) : Date :=
  if dateLe a b then a else b

/-- Month bucket index of a date (months since year 0). -/
def monthIdx (d : Date) : Nat :=
  d.year * 12 + (d.month - 1)

/-! ## Forecast projection engine

Modelled from the spec: the Projector / DateSpec Resolver / Ledger
Accumulator component (spec sections 2-4) is not among the six source
files of this repository; only its caller `get_charts`
(forecast/dashboard.py) is.  The definitions below follow the design
document: DateSpec variants `once` / `periodic` / `monthly_by_day`
(section 3), resolution clipped to the window (section 4.1), per-account
event merge ordered by (date, rule declaration index) (section 4.3), and
ledger accumulation starting from a seed entry (section 4.4).
`monthly_by_day` uses the clamp-to-last-day overflow policy the spec
suggests.  Formula amounts, transfers and weekend/holiday adjustment are
not needed by any claim and are not modelled. -/

/-- Interval units of a periodic DateSpec (spec section 3). -/
inductive IntervalUnit where
  | day
  | week
  | month
  | year
  deriving DecidableEq, Repr

/-- Modelled from the spec: DateSpec variants (spec section 3). -/
inductive DateSpecV where
  | once (d : Date)
  | periodic (anchor : Date) (unit : IntervalUnit) (count : Nat)
  | monthlyByDay (dayOfMonth : Nat)
  deriving DecidableEq, Repr

/-- Direction of a transaction rule. -/
inductive Direction where
  | deposit
  | withdrawal
  deriving DecidableEq, Repr

/-- Modelled from the spec: an account declaration (spec section 3). -/
structure AccountDecl where
  id : String
  name : String
  initialBalance : Int
  startDate : Date
  deriving DecidableEq, Repr

/-- Modelled from the spec: a fixed-amount transaction rule (spec
section 3), with the optional effective sub-window. -/
structure RuleDecl where
  label : String
  amount : Int
  direction : Direction
  accountId : String
  dateSpec : DateSpecV
  effectiveStart : Option Date
  effectiveEnd : Option Date
  deriving DecidableEq, Repr

/-- The signed delta a rule applies. -/
def signedDelta (r : RuleDecl) : Int :=
  match r.direction with
  | .deposit => r.amount
  | .withdrawal => -r.amount

/-- One step of a periodic rule: advance by `count` units. -/
def stepInterval (unit : IntervalUnit) (count : Nat) (d : Date) : Date :=
  match unit with
  | .day => addDaysN count d
  | .week => addDaysN (7 * count) d
  | .month => addMonths count d
  | .year => addYears d count

/-- Fuel-bounded expansion of a periodic DateSpec: starting at the
anchor, repeatedly step until past the window end, emitting the dates at
or after the window start. -/
def periodicGo (wstart wend : Date) (step : Date → Date) :
    Nat → Date → List Date
  | 0, _ => []
  | n + 1, d =>
    if dateLe d wend then
      (if dateLe wstart d then [d] else []) ++ periodicGo wstart wend step n (step d)
    else []

/-- Modelled from the spec: the DateSpec Resolver (spec section 4.1).
`resolve(date_spec, window)`: an ordered, deduplicated, finite date
sequence clipped to the window. -/
def resolveDateSpec (ds : DateSpecV) (wstart wend : Date) : List Date :=
  match ds with
  | .once d => if dateLe wstart d && dateLe d wend then [d] else []
  | .periodic anchor unit count =>
    periodicGo wstart wend (stepInterval unit count) (toSerial wend + 1) anchor
  | .monthlyByDay dayOfMonth =>
    ((List.range (monthIdx wend + 1 - monthIdx wstart)).map (fun i =>
      let mi := monthIdx wstart + i
      let y := mi / 12
      let m := mi % 12 + 1
      (⟨y, m, min dayOfMonth (daysInMonth y m)⟩ : Date))).filter
      (fun d => dateLe wstart d && dateLe d wend)

/-- A resolved dated event with its tie-break key (spec section 4.3):
the serial date and the declaration index of the generating rule. -/
structure Ev where
  serial : Nat
  date : Date
  ruleIdx : Nat
  delta : Int
  label : String
  deriving DecidableEq, Repr

/-- Event order: by date, then by rule declaration index. -/
def evLe (a b : Ev) : Bool :=
  Nat.blt a.serial b.serial
    || (a.serial == b.serial && Nat.ble a.ruleIdx b.ruleIdx)

/-- Insertion into a sorted event list. -/
def insertEv (e : Ev) : List Ev → List Ev
  | [] => [e]
  | x :: xs => if evLe e x then e :: x :: xs else x :: insertEv e xs

/-- Insertion sort of events by (date, declaration index). -/
def sortEvs : List Ev → List Ev
  | [] => []
  | x :: xs => insertEv x (sortEvs xs)

/-- One ledger entry (spec section 3): date, delta, running balance and
the generating rule's label. -/
structure LedgerEntry where
  date : Date
  delta : Int
  balance : Int
  label : String
  deriving DecidableEq, Repr

/-- Fold events into ledger entries, threading the running balance. -/
def accGo (bal : Int) : List Ev → List LedgerEntry
  | [] => []
  | e :: rest =>
    let nb := bal + e.delta
    ⟨e.date, e.delta, nb, e.label⟩ :: accGo nb rest

/-- Modelled from the spec: the Ledger Accumulator (spec section 4.4):
a seed entry `(seed_date, 0, initial_balance, "seed")` followed by one
entry per event with `new_balance = previous_balance + delta`. -/
def accumulate (seedDate : Date) (initialBalance : Int) (evs : List Ev) :
    List LedgerEntry :=
  ⟨seedDate, 0, initialBalance, "seed"⟩ :: accGo initialBalance evs

/-- The sub-window a rule is effective in (spec section 3: the optional
`effective_start`/`effective_end` narrow the global window). -/
def ruleWindow (r : RuleDecl) (ws we : Date) : Date × Date :=
  (maxDate ws (r.effectiveStart.getD ws), minDate we (r.effectiveEnd.getD we))

/-- Modelled from the spec: resolved, merged, tie-break-ordered events of
one account (spec section 4.3), restricted to dates at or after the seed
date (spec section 3: no events apply before the account's start date). -/
def eventsFor (ws we : Date) (rules : List RuleDecl) (a : AccountDecl) :
    List Ev :=
  let seedDate := maxDate a.startDate ws
  sortEvs ((rules.enum.filter (fun p => p.2.accountId == a.id)).flatMap (fun p =>
    let r := p.2
    let w := ruleWindow r ws we
    ((resolveDateSpec r.dateSpec w.1 w.2).filter
        (fun d => dateLe seedDate d)).map (fun d =>
      { serial := toSerial d, date := d, ruleIdx := p.1,
        delta := signedDelta r, label := r.label })))

/-- An account as the projection exposes it: id, display name, ledger. -/
structure Account where
  id : String
  name : String
  ledger : List LedgerEntry
  deriving DecidableEq, Repr

/-- Grouping period for the grouped balance series. -/
inductive Period where
  | monthly
  | yearly
  deriving DecidableEq, Repr

/-- The period bucket a date falls into. -/
def bucketOf (p : Period) (d : Date) : Nat :=
  match p with
  | .monthly => monthIdx d
  | .yearly => d.year

/-- The carry-forward balance of a bucket: the running balance of the
last ledger entry dated in that bucket or before it. -/
def carryBalance (p : Period) (ledger : List LedgerEntry) (b : Nat) : Int :=
  ledger.foldl (fun acc e => if bucketOf p e.date ≤ b then e.balance else acc) 0

/-- The last element of a nonempty list, given head and tail. -/
def lastOf (e : LedgerEntry) : List LedgerEntry → LedgerEntry
  | [] => e
  | x :: xs => lastOf x xs

/-- Modelled from the spec: grouping/resampling (spec section 4.5):
`group(ledger, period)` partitions the ledger's dates into period
buckets and reports, per bucket in order, the running balance of the
last entry dated in or before that bucket (carry-forward). -/
def groupLedger (ledger : List LedgerEntry) (p : Period) : List (Nat × Int) :=
  match ledger with
  | [] => []
  | e :: rest =>
    let first := bucketOf p e.date
    let last := bucketOf p (lastOf e rest).date
    (List.range (last + 1 - first)).map (fun i =>
      (first + i, carryBalance p ledger (first + i)))

/-- Modelled from the spec: `Account.get_running_balance_grouped`, the
grouped running-balance series; the grouping period is an explicit
parameter, defaulted for the dashboard's `get_running_balance_grouped()`
call. -/
def Account.get_running_balance_grouped (a : Account)
    (p : Period := .monthly) : List (Nat × Int) :=
  groupLedger a.ledger p

/-- One chart declaration in the spec's chart list. -/
structure ChartDecl where
  name : String
  account_ids : List String
  deriving DecidableEq, Repr

/-- A top-level value of the specification mapping. -/
inductive TopVal where
  | accountList (xs : List AccountDecl)
  | ruleList (xs : List RuleDecl)
  | chartList (xs : List ChartDecl)
  | raw (j : Json)

/-- The specification document: a mapping from top-level keys. -/
def SpecDoc : Type := List (String × TopVal)

/-- Python dict subscription on the spec mapping: `KeyError` on a
missing key. -/
def lookupSpec (spec : SpecDoc) (k : String) : Except PyErr TopVal :=
  match List.find? (fun p => p.1 == k) spec with
  | some p => .ok p.2
  | none => .error (.keyError k)

/-- All account declarations in the spec mapping. -/
def collectAccounts (spec : SpecDoc) : List AccountDecl :=
  spec.foldr (fun p acc =>
    match p.2 with
    | .accountList xs => xs ++ acc
    | _ => acc) []

/-- All transaction-rule declarations in the spec mapping. -/
def collectRules (spec : SpecDoc) : List RuleDecl :=
  spec.foldr (fun p acc =>
    match p.2 with
    | .ruleList xs => xs ++ acc
    | _ => acc) []

/-- Modelled from the spec: the ledger of one account over the window. -/
def buildLedger (ws we : Date) (rules : List RuleDecl) (a : AccountDecl) :
    List LedgerEntry :=
  accumulate (maxDate a.startDate ws) a.initialBalance (eventsFor ws we rules a)

/-- The Projector: the spec it was built from, the forecast window, and
the computed accounts. -/
structure Projector where
  spec : SpecDoc
  startDate : Date
  endDate : Date
  accounts : List Account

/-- Modelled from the spec: `Projector.from_spec(spec, start, end)`
(spec section 4.3): parse the mapping into accounts and rules and drive
the Ledger Accumulator for every account over the shared window. -/
def Projector.fromSpec (spec : SpecDoc) (ws we : Date) : Projector :=
  { spec := spec, startDate := ws, endDate := we,
    accounts := (collectAccounts spec).map (fun a =>
      { id := a.id, name := a.name,
        ledger := buildLedger ws we (collectRules spec) a }) }

/-- Modelled from the spec: `get_account(id)`. -/
def Projector.get_account (p : Projector) (id : String) : Account :=
  (List.find? (fun a => a.id == id) p.accounts).getD
    { id := id, name := "", ledger := [] }

/-- One per-account entry of a chart: the account's display name and its
grouped running-balance series (`dict(name=..., df=...)`). -/
structure ChartAccount where
  name : String
  df : List (Nat × Int)
  deriving DecidableEq, Repr

/-- A `ForecastLineAIO` chart: its title and its per-account series. -/
structure ForecastLineAIO where
  title : String
  accounts : List ChartAccount
  deriving DecidableEq, Repr

/-- Embedding of `get_charts` (forecast/dashboard.py lines 10-28): the
window start is the day after the current date, the window end one year
after the start; the Projector is built from the spec and those dates;
then one chart per entry of `spec['chart_spec']`, pairing each listed
account id's display name with its grouped running-balance series, both
via `get_account`.  The projector built at lines 13-15 is returned
alongside the chart result so theorems can observe the constructed
window; the source formats the two dates with `DATE_FORMAT` when passing
them, glue that the date-valued model elides. -/
def getCharts (today : Date) (spec : SpecDoc) :
    Projector × Except PyErr (List ForecastLineAIO) :=
  let startDate := nextDay today
  let endDate := addYears startDate 1
  let projector := Projector.fromSpec spec startDate endDate
  (projector,
    match lookupSpec spec "chart_spec" with
    | .error e => .error e
    | .ok (.chartList cs) => .ok (cs.map (fun c =>
        { title := c.name,
          accounts := c.account_ids.map (fun a =>
            { name := (projector.get_account a).name,
              df := (projector.get_account a).get_running_balance_grouped }) }))
    | .ok _ => .error .typeError)

/-! ## Fixtures used by witnesses and examples -/

/-- The example account of spec section 8. -/
def demoChecking : AccountDecl :=
  { id := "checking", name := "Checking", initialBalance := 1000,
    startDate := ⟨2024, 1, 1⟩ }

/-- The example salary rule of spec section 8. -/
def demoSalary : RuleDecl :=
  { label := "salary", amount := 2000, direction := .deposit,
    accountId := "checking", dateSpec := .monthlyByDay 1,
    effectiveStart := some ⟨2024, 1, 1⟩, effectiveEnd := some ⟨2024, 3, 1⟩ }

/-- The example rent rule of spec section 8. -/
def demoRent : RuleDecl :=
  { label := "rent", amount := 1200, direction := .withdrawal,
    accountId := "checking", dateSpec := .monthlyByDay 3,
    effectiveStart := some ⟨2024, 1, 1⟩, effectiveEnd := some ⟨2024, 3, 31⟩ }

/-- A demo specification mapping with all three top-level keys. -/
def demoSpec : SpecDoc :=
  [("accounts", .accountList [demoChecking]),
   ("transactions", .ruleList [demoSalary, demoRent]),
   ("chart_spec", .chartList [{ name := "Main", account_ids := ["checking"] }])]

/-- The engine model reproduces the worked scenario of spec section 8:
seed 1000, then 3000, 1800, 3800, 2600, 4600, 3400 on the expected
dates, and monthly grouping Jan=1800, Feb=2600, Mar=3400. -/
theorem demo_scenario_ledger :
    ((Projector.fromSpec demoSpec ⟨2024, 1, 1⟩ ⟨2024, 3, 31⟩).get_account
        "checking").ledger =
      [⟨⟨2024, 1, 1⟩, 0, 1000, "seed"⟩,
       ⟨⟨2024, 1, 1⟩, 2000, 3000, "salary"⟩,
       ⟨⟨2024, 1, 3⟩, -1200, 1800, "rent"⟩,
       ⟨⟨2024, 2, 1⟩, 2000, 3800, "salary"⟩,
       ⟨⟨2024, 2, 3⟩, -1200, 2600, "rent"⟩,
       ⟨⟨2024, 3, 1⟩, 2000, 4600, "salary"⟩,
       ⟨⟨2024, 3, 3⟩, -1200, 3400, "rent"⟩]
    ∧ ((Projector.fromSpec demoSpec ⟨2024, 1, 1⟩ ⟨2024, 3, 31⟩).get_account
        "checking").get_running_balance_grouped =
      [(24288, 1800), (24289, 2600), (24290, 3400)] := by
  constructor <;> rfl

/-- A backend instantiation for concrete evaluation in witnesses. -/
def testBackend : Backend :=
  { toParquet := fun d => d.cells.map Int.natAbs,
    fromParquet := fun b => some ⟨(show List Nat from b).map (fun n => (n : Int))⟩,
    plotlyEncode := fun _ => [1, 2],
    jsonLoads := fun _ => some (.arr [.num 1, .num 2]),
    sha512hex := fun b => "h" ++ toString (b.foldl (fun a x => a + 2 * x + 1) 7) }

/-! ## Redis store lemmas -/

theorem rget_rset_same (st : RedisState) (k : String) (v : RVal) :
    rget (rset st k v) k = some v := by
  simp [rget, rset, List.find?]

theorem rget_rset_other (st : RedisState) (k1 k2 : String) (v : RVal)
    (h : k1 ≠ k2) : rget (rset st k1 v) k2 = rget st k2 := by
  unfold rget rset
  rw [List.find?_cons_of_neg]
  simpa using h

/-- C2: `RedisStore.save` serializes the value (DataFrame as parquet
bytes, anything else as Plotly-encoded JSON bytes), derives the store
key from the SHA-512 hash of exactly those serialized bytes, writes the
serialized bytes and a type tag under that key, returns the hash key,
and any two values with equal serialized form get the same key. -/
theorem redis_save_key_is_content_hash (B : Backend) (v : PyValue)
    (st : RedisState) :
    (RedisStore.save B v st).1 = B.sha512hex (serializedBytes B v)
    ∧ rget (RedisStore.save B v st).2
        ("_dash_aio_components_value_" ++ (RedisStore.save B v st).1)
        = some (.bytes (serializedBytes B v))
    ∧ rget (RedisStore.save B v st).2
        ("_dash_aio_components_type_" ++ (RedisStore.save B v st).1)
        = some (.str (typeTag v))
    ∧ ∀ v2 st2, serializedBytes B v = serializedBytes B v2 →
        (RedisStore.save B v st).1 = (RedisStore.save B v2 st2).1 := by
  refine ⟨?_, ?_, ?_, ?_⟩
  · cases v <;> rfl
  · cases v <;>
      · simp only [RedisStore.save, serializedBytes]
        rw [rget_rset_other _ _ _ _ (Ne.symm (value_key_ne_type_key _))]
        exact rget_rset_same _ _ _
  · cases v <;>
      · simp only [RedisStore.save, typeTag]
        exact rget_rset_same _ _ _
  · intro v2 st2 hser
    cases v <;> cases v2 <;>
      · simp only [RedisStore.save]
        simp only [serializedBytes] at hser
        rw [hser]

/-- Witness for C2: two distinct values whose (test-backend) serialized
forms coincide are saved under the same key. -/
theorem redis_save_key_is_content_hash_witness :
    (RedisStore.save testBackend (.py (.str "a")) []).1
      = (RedisStore.save testBackend (.py (.str "b")) []).1 :=
  (redis_save_key_is_content_hash testBackend (.py (.str "a")) []).2.2.2
    (.py (.str "b")) [] rfl

/-- C8: load/save round-trip: for a DataFrame (with parquet decode the
inverse of parquet encode, a pandas guarantee), `load` after `save`
returns an equal DataFrame; for any other value, `load` after `save`
returns `json.loads` of its Plotly-encoded serialization, a possibly
lossy JSON round-trip of the original value. -/
theorem redis_load_save_roundtrip (B : Backend) (st : RedisState) :
    (∀ d : DataFrame, B.fromParquet (B.toParquet d) = some d →
      RedisStore.load B (RedisStore.save B (.df d) st).2
        (RedisStore.save B (.df d) st).1 = .ok (.df d))
    ∧ (∀ (j j2 : Json), B.jsonLoads (B.plotlyEncode j) = some j2 →
      RedisStore.load B (RedisStore.save B (.py j) st).2
        (RedisStore.save B (.py j) st).1 = .ok (.json j2)) := by
  constructor
  · intro d hrt
    simp only [RedisStore.save, RedisStore.load]
    rw [rget_rset_same,
      rget_rset_other _ _ _ _ (Ne.symm (value_key_ne_type_key _)),
      rget_rset_same]
    simp [hrt]
  · intro j j2 hload
    simp only [RedisStore.save, RedisStore.load]
    rw [rget_rset_same,
      rget_rset_other _ _ _ _ (Ne.symm (value_key_ne_type_key _)),
      rget_rset_same]
    rw [if_neg (by simp)]
    simp [hload]

/-- Witness for C8: concrete round-trips through the test backend. -/
theorem redis_load_save_roundtrip_witness :
    RedisStore.load testBackend
        (RedisStore.save testBackend (.df ⟨[1, 2, 3]⟩) []).2
        (RedisStore.save testBackend (.df ⟨[1, 2, 3]⟩) []).1
      = .ok (.df ⟨[1, 2, 3]⟩)
    ∧ RedisStore.load testBackend
        (RedisStore.save testBackend (.py (.str "a")) []).2
        (RedisStore.save testBackend (.py (.str "a")) []).1
      = .ok (.json (.arr [.num 1, .num 2])) :=
  ⟨(redis_load_save_roundtrip testBackend []).1 ⟨[1, 2, 3]⟩ rfl,
   (redis_load_save_roundtrip testBackend []).2 (.str "a")
     (.arr [.num 1, .num 2]) rfl⟩

/-- C1: evaluation of `CsvFormatter.format` on an export directory whose
single file holds exactly the document `BrokerageWriter` produces (as
pinned by `test_brokerage_writer.py`): the `accounts` entry is a JSON
array, so `data['accounts'].values()` raises `AttributeError` and no lot
row is ever written, contradicting the claimed one-row-per-lot output. -/
theorem csv_format_fails_on_brokerage_writer_shape :
    CsvFormatter.format [("brokerage_vanguard.json", brokerageWriterDoc)]
      = .error .attributeError := by
  rfl

/-- On an export document whose `accounts` and `cost_basis` collections
are JSON objects instead of the arrays `BrokerageWriter` emits (and
whose lots carry a `term` field), the same traversal does produce one
row per lot with the fields the claim describes; the failure above is
specific to the writer's actual array shape. -/
theorem csv_format_ok_on_mapping_shape :
    CsvFormatter.format [("brokerage_vanguard.json",
      .obj [
        ("accounts", .obj [
          ("acct1", .obj [
            ("account_name", .str "Freedom"),
            ("cost_basis", .obj [
              ("CRLBF", .obj [
                ("ticker", .str "CRLBF"),
                ("lots", .arr [
                  .obj [
                    ("date_acquired", .str "12/27/2018"),
                    ("num_shares", .str "16.0000"),
                    ("cost_per_share", .str "39.21"),
                    ("total_cost", .str "627.32"),
                    ("term", .str "long")]])])])])])])]
      = .ok (CsvFormatter.HEADERS,
          [{ account_name := .str "Freedom", ticker := .str "CRLBF",
             date_acquired := .str "12/27/2018", num_shares := .str "16.0000",
             cost_per_share := .str "39.21", total_cost := .str "627.32",
             term := .str "long" }]) := by
  rfl

/-- C9: the factory returns a CsvFormatter instance for `csv`; for every
supported name it returns an instance, for every other name it raises
`UnsupportedFormatterException` whose message joins the supported
formatter names; and that message reads `Formatter must be one of csv`. -/
theorem get_formatter_support (fn : String) :
    BrokerageFormatterFactory.get_formatter "csv" = .ok .csvFormatter
    ∧ (fn ∈ BrokerageFormatterFactory.get_supported_formatters →
        ∃ f, BrokerageFormatterFactory.get_formatter fn = .ok f)
    ∧ (fn ∉ BrokerageFormatterFactory.get_supported_formatters →
        BrokerageFormatterFactory.get_formatter fn
          = .error ("Formatter must be one of "
              ++ String.intercalate ", "
                  BrokerageFormatterFactory.get_supported_formatters))
    ∧ ("Formatter must be one of "
        ++ String.intercalate ", "
            BrokerageFormatterFactory.get_supported_formatters)
      = "Formatter must be one of csv" := by
  refine ⟨rfl, ?_, ?_, by decide⟩
  · intro h
    have hfn : fn = "csv" := by
      simpa [BrokerageFormatterFactory.get_supported_formatters,
        BrokerageFormatterFactory.formatters] using h
    subst hfn
    exact ⟨.csvFormatter, rfl⟩
  · intro h
    have hfn : fn ≠ "csv" := by
      simpa [BrokerageFormatterFactory.get_supported_formatters,
        BrokerageFormatterFactory.formatters] using h
    have hb : (("csv" : String) == fn) = false :=
      beq_eq_false_iff_ne.mpr (Ne.symm hfn)
    simp [BrokerageFormatterFactory.get_formatter,
      BrokerageFormatterFactory.formatters, List.find?, hb]

/-- Witness for C9: an unsupported name raises with the message listing
the supported formatters. -/
theorem get_formatter_support_witness :
    BrokerageFormatterFactory.get_formatter "pdf"
      = .error "Formatter must be one of csv" := by
  rw [(get_formatter_support "pdf").2.2.1 (by decide),
    (get_formatter_support "pdf").2.2.2]

/-- A concrete file system for `get_yaml` witnesses. -/
def demoFs : Fs :=
  { forecastUserExists := true, investUserExists := false,
    read := fun _ => .str "doc" }

/-- C10: `get_yaml 'forecast'` opens and parses the user forecast file
when it exists and the distributed default otherwise; likewise
`get_yaml 'invest'` for the invest files; for any other argument it
raises (the unassigned `spec_file` local) before opening any file. -/
theorem get_yaml_selection (fs : Fs) (t : String) :
    (t = "forecast" →
      get_yaml fs t =
        (.ok (fs.read (if fs.forecastUserExists then .forecastFile
            else .forecastDistFile)),
         [if fs.forecastUserExists then SpecFile.forecastFile
            else SpecFile.forecastDistFile]))
    ∧ (t = "invest" →
      get_yaml fs t =
        (.ok (fs.read (if fs.investUserExists then .investFile
            else .investDistFile)),
         [if fs.investUserExists then SpecFile.investFile
            else SpecFile.investDistFile]))
    ∧ (t ≠ "forecast" → t ≠ "invest" →
        get_yaml fs t = (.error .unboundLocalError, [])) := by
  refine ⟨?_, ?_, ?_⟩
  · intro h
    subst h
    simp [get_yaml]
  · intro h
    subst h
    simp [get_yaml]
  · intro h1 h2
    simp [get_yaml, h1, h2]

/-- Witness for C10: an argument that is neither `forecast` nor `invest`
raises before opening any file. -/
theorem get_yaml_selection_witness :
    get_yaml demoFs "bogus" = (.error .unboundLocalError, []) :=
  (get_yaml_selection demoFs "bogus").2.2 (by decide) (by decide)

/-- C3: `get_charts` uses the tomorrow-through-one-year-out window: the
start date is the day after the current date, the end date exactly one
year after that start, and the Projector is constructed from the spec
and those two dates (dashboard.py lines 11-15). -/
theorem get_charts_default_window (today : Date) (spec : SpecDoc) :
    (getCharts today spec).1.startDate = nextDay today
    ∧ (getCharts today spec).1.endDate = addYears (nextDay today) 1
    ∧ (getCharts today spec).1.spec = spec :=
  ⟨rfl, rfl, rfl⟩

/-- The chart a projector yields for one chart declaration: the
declaration's name as title, and per listed account id the pair of the
account's display name and its grouped running-balance series. -/
def chartFor (p : Projector) (c : ChartDecl) : ForecastLineAIO :=
  { title := c.name,
    accounts := c.account_ids.map (fun a =>
      { name := (p.get_account a).name,
        df := (p.get_account a).get_running_balance_grouped }) }

/-- C4: one chart per declaration of the spec's chart list, titled with
the declaration's name and pairing, per listed account id in order, the
account's display name with its grouped running-balance series, both
obtained through `get_account` on the projector. -/
theorem get_charts_one_chart_per_declaration (today : Date) (spec : SpecDoc)
    (cs : List ChartDecl)
    (h : lookupSpec spec "chart_spec" = .ok (.chartList cs)) :
    ∃ charts, (getCharts today spec).2 = .ok charts
    ∧ charts.length = cs.length
    ∧ ∀ i : Nat,
        (charts[i]?).map ForecastLineAIO.title = (cs[i]?).map ChartDecl.name
        ∧ charts[i]? = (cs[i]?).map (chartFor (getCharts today spec).1) := by
  refine ⟨cs.map (chartFor (getCharts today spec).1), ?_, by simp, ?_⟩
  · unfold getCharts chartFor
    rw [h]
  · intro i
    refine ⟨?_, by rw [List.getElem?_map]⟩
    rw [List.getElem?_map, Option.map_map]
    cases hcs : cs[i]? with
    | none => rfl
    | some c => rfl

/-- Witness for C4: the demo spec declares one chart and `get_charts`
produces exactly one chart for it. -/
theorem get_charts_one_chart_per_declaration_witness :
    ∃ charts, (getCharts ⟨2023, 12, 31⟩ demoSpec).2 = .ok charts
      ∧ charts.length = 1 := by
  obtain ⟨charts, h1, h2, _⟩ :=
    get_charts_one_chart_per_declaration ⟨2023, 12, 31⟩ demoSpec
      [{ name := "Main", account_ids := ["checking"] }] rfl
  exact ⟨charts, h1, by simpa using h2⟩

/-- C5: determinism of the projection: two projectors built by
`Projector.from_spec` from identical spec, start date and end date have
identical per-account ledger sequences. -/
theorem projection_deterministic (spec : SpecDoc) (ws we : Date)
    (p1 p2 : Projector)
    (h1 : p1 = Projector.fromSpec spec ws we)
    (h2 : p2 = Projector.fromSpec spec ws we) :
    ∀ id, (p1.get_account id).ledger = (p2.get_account id).ledger := by
  subst h1
  subst h2
  intro _
  rfl

/-- Witness for C5: two runs on the demo spec and window agree on the
checking account's ledger. -/
theorem projection_deterministic_witness :
    ((Projector.fromSpec demoSpec ⟨2024, 1, 1⟩ ⟨2024, 3, 31⟩).get_account
        "checking").ledger
      = ((Projector.fromSpec demoSpec ⟨2024, 1, 1⟩ ⟨2024, 3, 31⟩).get_account
        "checking").ledger :=
  projection_deterministic demoSpec ⟨2024, 1, 1⟩ ⟨2024, 3, 31⟩ _ _ rfl rfl
    "checking"

/-- C6: the grouping operation takes the grouping period as an explicit
parameter and returns an ordered sequence of (period label, balance)
pairs for that period: labels strictly increase, and each pair's balance
is the carry-forward balance of its own period bucket. -/
theorem grouped_series_ordered (ledger : List LedgerEntry) (p : Period) :
    ((groupLedger ledger p).map Prod.fst).Pairwise (fun a b => a < b)
    ∧ ∀ pr ∈ groupLedger ledger p, pr.2 = carryBalance p ledger pr.1 := by
  constructor
  · cases ledger with
    | nil => simp [groupLedger]
    | cons e rest =>
      simp only [groupLedger, List.map_map]
      rw [List.pairwise_map]
      refine (List.pairwise_lt_range _).imp ?_
      intro a b hab
      simp only [Function.comp_apply]
      omega
  · cases ledger with
    | nil => simp [groupLedger]
    | cons e rest =>
      intro pr hpr
      simp only [groupLedger, List.mem_map] at hpr
      obtain ⟨i, hi, rfl⟩ := hpr
      rfl

/-- Witness for C6: the demo ledger's monthly grouping has strictly
increasing labels and its January pair carries January's closing
balance. -/
theorem grouped_series_ordered_witness :
    ((groupLedger ((Projector.fromSpec demoSpec ⟨2024, 1, 1⟩
        ⟨2024, 3, 31⟩).get_account "checking").ledger Period.monthly).map
          Prod.fst).Pairwise (fun a b => a < b)
    ∧ ((24288 : Nat), (1800 : Int)).2
        = carryBalance Period.monthly ((Projector.fromSpec demoSpec
            ⟨2024, 1, 1⟩ ⟨2024, 3, 31⟩).get_account "checking").ledger
          ((24288 : Nat), (1800 : Int)).1 :=
  ⟨(grouped_series_ordered _ _).1,
   (grouped_series_ordered _ _).2 ((24288 : Nat), (1800 : Int)) (by decide)⟩

/-- A specification mapping carrying exactly the two top-level keys the
claim C7 names: the account declarations and the transaction rules. -/
def accountsAndRulesOnlySpec : SpecDoc :=
  [("accounts", .accountList [demoChecking]),
   ("transactions", .ruleList [demoSalary, demoRent])]

/-- Counterexample for C7: on a spec mapping whose top-level keys are
exactly the account list and the rule list, `get_charts` fails with
`KeyError` on the further top-level key `chart_spec` it subscripts. -/
theorem get_charts_missing_chart_spec_counterexample :
    (getCharts ⟨2023, 12, 31⟩ accountsAndRulesOnlySpec).2
      = .error (.keyError "chart_spec") := by
  rfl

/-- C7 amended: a spec mapping additionally carrying the top-level key
`chart_spec` (a list of chart declarations) is sufficient: `get_charts`
consumes it without requiring any further top-level key. -/
theorem get_charts_amended_requires_chart_spec (today : Date)
    (spec : SpecDoc) (cs : List ChartDecl)
    (h : lookupSpec spec "chart_spec" = .ok (.chartList cs)) :
    ∃ charts, (getCharts today spec).2 = .ok charts := by
  refine ⟨cs.map (chartFor (getCharts today spec).1), ?_⟩
  unfold getCharts chartFor
  rw [h]

/-- Witness for C7 amended: the demo spec's three keys suffice. -/
theorem get_charts_amended_requires_chart_spec_witness :
    ∃ charts, (getCharts ⟨2023, 12, 31⟩ demoSpec).2 = .ok charts :=
  get_charts_amended_requires_chart_spec ⟨2023, 12, 31⟩ demoSpec
    [{ name := "Main", account_ids := ["checking"] }] rfl
